import Mathlib

/-!
Shallow embedding of `internal/util/K8sUtil.go` (package `util`) from the
devtron repository, together with theorems checking the natural-language
specification against it.

The remote Kubernetes control plane is modelled by an abstract environment
`Env`: a record of response functions, one per kind of remote call the code
can issue.  Each Go function is translated into a Lean function that takes
the environment, mirrors the Go control flow, and returns its Go results
together with a trace of `Event`s (remote calls issued and log statements)
in the order the Go code performs them.  Go's `(pointer, error)` multiple
returns are modelled as `Option resource × Option GoError`; `panic` is
modelled by the `Outcome` wrapper.  `encoding/json.Marshal` is modelled by
`marshal` over a `GoValue` tree (an `interface\x7b\x7d` value), which fails
exactly when the value contains an unserialisable component.
-/

namespace DevtronUtil

/-- Go `error` values as the code observes them: `errors.IsNotFound`
classifies the error, and it carries a message. -/
structure GoError where
  IsNotFound : Bool
  msg : String
  deriving DecidableEq, Repr

/-- Go `type ClusterConfig struct \x7b Host string; BearerToken string \x7d`. -/
structure ClusterConfig where
  Host : String
  BearerToken : String
  deriving DecidableEq, Repr

/-- Go `schema.GroupVersion`. -/
structure GroupVersion where
  Group : String
  Version : String
  deriving DecidableEq, Repr

/-- The fields of `rest.Config` that the code sets (others keep their zero
value: `APIPath = ""`, `GroupVersion = nil`, no serializer). -/
structure RestConfig where
  Host : String
  BearerToken : String
  Insecure : Bool
  APIPath : String
  GroupVersion : Option GroupVersion
  NegotiatedSerializerSet : Bool
  deriving DecidableEq, Repr

/-- An abstract `*v12.CoreV1Client` handle. -/
structure CoreV1Client where
  id : Nat
  deriving DecidableEq, Repr

/-- An abstract `*rest.RESTClient`; `rest.RESTClientFor` bakes the supplied
config (base path, group/version, host, credentials) into the client. -/
structure RESTClient where
  config : RestConfig
  deriving DecidableEq, Repr

/-- Go `metav1.ObjectMeta` (only the `Name` field is ever set by this code). -/
structure ObjectMeta where
  Name : String
  deriving DecidableEq, Repr

/-- Go `v1.Namespace` (named `V1Namespace` because `namespace` is reserved). -/
structure V1Namespace where
  ObjectMeta : ObjectMeta
  deriving DecidableEq, Repr

/-- Go `v1.ConfigMap`: metadata plus string key/value payload. -/
structure ConfigMap where
  ObjectMeta : ObjectMeta
  Data : List (String × String)
  deriving DecidableEq, Repr

/-- Go `v1.Secret`: metadata plus `map[string][]byte` payload (bytes as
strings). -/
structure Secret where
  ObjectMeta : ObjectMeta
  Data : List (String × String)
  deriving DecidableEq, Repr

/-- Go `types.MergePatchType`. -/
def MergePatchType : String := "application/merge-patch+json"

/-- Go `types.JSONPatchType`. -/
def JSONPatchType : String := "application/json-patch+json"

/-- A Go `interface\x7b\x7d` value as seen by `encoding/json.Marshal`.
`vunsupported` stands for a value `Marshal` cannot serialise (a channel, a
function, ...). -/
inductive GoValue where
  | vnull : GoValue
  | vbool : Bool → GoValue
  | vnum : Int → GoValue
  | vstr : String → GoValue
  | varr : List GoValue → GoValue
  | vobj : List (String × GoValue) → GoValue
  | vunsupported : String → GoValue

/-- JSON string escaping for the encoder (quote and backslash). -/
def escapeChar (c : Char) : String :=
  if c.toNat = 34 then "\\\"" else if c.toNat = 92 then "\\\\" else String.singleton c

/-- Encode a string as a JSON string literal. -/
def encodeJsonString (s : String) : String :=
  "\"" ++ String.join (s.data.map escapeChar) ++ "\""

mutual

/-- The JSON text `encoding/json.Marshal` produces for a serialisable value. -/
def jsonEncode : GoValue → String
  | .vnull => "null"
  | .vbool b => if b then "true" else "false"
  | .vnum n => toString n
  | .vstr s => encodeJsonString s
  | .varr xs => "[" ++ jsonEncodeItems xs ++ "]"
  | .vobj fs => "\x7b" ++ jsonEncodeFields fs ++ "\x7d"
  | .vunsupported _ => ""

/-- Comma-separated encoding of JSON array elements. -/
def jsonEncodeItems : List GoValue → String
  | [] => ""
  | [x] => jsonEncode x
  | x :: y :: rest => jsonEncode x ++ "," ++ jsonEncodeItems (y :: rest)

/-- Comma-separated encoding of JSON object members. -/
def jsonEncodeFields : List (String × GoValue) → String
  | [] => ""
  | [(k, v)] => encodeJsonString k ++ ":" ++ jsonEncode v
  | (k, v) :: f :: rest =>
      encodeJsonString k ++ ":" ++ jsonEncode v ++ "," ++ jsonEncodeFields (f :: rest)

end

mutual

/-- Whether a value contains a component `encoding/json.Marshal` rejects. -/
def hasUnsupported : GoValue → Bool
  | .vnull => false
  | .vbool _ => false
  | .vnum _ => false
  | .vstr _ => false
  | .varr xs => hasUnsupportedItems xs
  | .vobj fs => hasUnsupportedFields fs
  | .vunsupported _ => true

/-- Go `hasUnsupported` over array elements. -/
def hasUnsupportedItems : List GoValue → Bool
  | [] => false
  | x :: rest => hasUnsupported x || hasUnsupportedItems rest

/-- Go `hasUnsupported` over object members. -/
def hasUnsupportedFields : List (String × GoValue) → Bool
  | [] => false
  | (_, v) :: rest => hasUnsupported v || hasUnsupportedFields rest

end

/-- The error message of a failed `json.Marshal`. -/
def jsonUnsupportedMsg : String := "json: unsupported type"

/-- Go `encoding/json.Marshal`: fails exactly when the value contains an
unserialisable component, otherwise yields the JSON text. -/
def marshal (v : GoValue) : Except String String :=
  if hasUnsupported v then .error jsonUnsupportedMsg else .ok (jsonEncode v)

/-- Go `type JsonPatchType struct \x7b Op, Path string; Value interface\x7b\x7d \x7d`. -/
structure JsonPatchType where
  Op : String
  Path : String
  Value : GoValue

/-- How `json.Marshal` views a `JsonPatchType` value: an object with the
fields in declaration order, under their `json:"..."` tags. -/
def JsonPatchType.toGoValue (p : JsonPatchType) : GoValue :=
  .vobj [("op", .vstr p.Op), ("path", .vstr p.Path), ("value", p.Value)]

/-- A remote call issued by the code, with every argument the call carries. -/
inductive Call where
  | newForConfig : RestConfig → Call
  | restClientFor : RestConfig → Call
  | nsGet : CoreV1Client → String → Call
  | nsCreate : CoreV1Client → V1Namespace → Call
  | nsDelete : CoreV1Client → String → Call
  | cmGet : CoreV1Client → String → String → Call
  | cmUpdate : CoreV1Client → String → ConfigMap → Call
  | cmPatch : CoreV1Client → String → String → String → String → Call
  | secGet : CoreV1Client → String → String → Call
  | secCreate : CoreV1Client → String → Secret → Call
  | secUpdate : CoreV1Client → String → Secret → Call
  | restPost : RESTClient → String → String → String → Call
  deriving DecidableEq, Repr

/-- One step of observable behaviour: a remote call or a logger statement. -/
inductive Event where
  | call : Call → Event
  | log : String → List String → Event
  deriving DecidableEq, Repr

/-- The calls of a trace, in order, with the log statements dropped. -/
def callsOf (tr : List Event) : List Call :=
  tr.filterMap fun e => match e with
    | .call c => some c
    | .log _ _ => none

/-- The abstract cluster: how the remote control plane (and the local client
constructors) answer each call the code can make.  `restPostRes` yields the
raw response bytes together with the error, as `Do().Raw()` does. -/
structure Env where
  newForConfigRes : RestConfig → Except GoError CoreV1Client
  restClientForErr : RestConfig → Option GoError
  nsGetRes : CoreV1Client → String → Except GoError V1Namespace
  nsCreateRes : CoreV1Client → V1Namespace → Except GoError V1Namespace
  nsDeleteErr : CoreV1Client → String → Option GoError
  cmGetRes : CoreV1Client → String → String → Except GoError ConfigMap
  cmUpdateRes : CoreV1Client → String → ConfigMap → Except GoError ConfigMap
  cmPatchRes : CoreV1Client → String → String → String → String → Except GoError ConfigMap
  secGetRes : CoreV1Client → String → String → Except GoError Secret
  secCreateRes : CoreV1Client → String → Secret → Except GoError Secret
  secUpdateRes : CoreV1Client → String → Secret → Except GoError Secret
  restPostRes : RESTClient → String → String → String → String × Option GoError

/-- A Go computation that either returns normally or panics. -/
inductive Outcome (α : Type) where
  | panicked : String → Outcome α
  | ret : α → Outcome α
  deriving DecidableEq, Repr

/-- The `rest.Config` literal built inside `GetClient`: host, bearer token
and `Insecure = true`; every other field keeps its zero value. -/
def coreRestConfig (clusterConfig : ClusterConfig) : RestConfig :=
  { Host := clusterConfig.Host
    BearerToken := clusterConfig.BearerToken
    Insecure := true
    APIPath := ""
    GroupVersion := none
    NegotiatedSerializerSet := false }

/-- Go `func (impl K8sUtil) GetClient(clusterConfig *ClusterConfig)
(*v12.CoreV1Client, error)`: builds the config above and returns
`v12.NewForConfig(cfg)`'s results unchanged. -/
def GetClient (env : Env) (clusterConfig : ClusterConfig) :
    Except GoError CoreV1Client × List Event :=
  let cfg := coreRestConfig clusterConfig
  (env.newForConfigRes cfg, [.call (.newForConfig cfg)])

/-- Go `func (impl K8sUtil) checkIfNsExists(namespace string, client
*v12.CoreV1Client) (exists bool, err error)`. -/
def checkIfNsExists (env : Env) (ns : String) (client : CoreV1Client) :
    (Bool × Option GoError) × List Event :=
  let tr : List Event := [.call (.nsGet client ns), .log "ns fetch" [ns]]
  match env.nsGetRes client ns with
  | .error err => if err.IsNotFound then ((false, none), tr) else ((false, some err), tr)
  | .ok _ => ((true, none), tr)

/-- Go `func (impl K8sUtil) createNs(namespace string, client *v12.CoreV1Client)
(ns *v1.Namespace, err error)`: creates `&v1.Namespace\x7bObjectMeta:
metav1.ObjectMeta\x7bName: namespace\x7d\x7d`. -/
def createNs (env : Env) (ns : String) (client : CoreV1Client) :
    (Option V1Namespace × Option GoError) × List Event :=
  let nsSpec : V1Namespace := { ObjectMeta := { Name := ns } }
  let tr : List Event := [.call (.nsCreate client nsSpec)]
  match env.nsCreateRes client nsSpec with
  | .error err => ((none, some err), tr)
  | .ok created => ((some created, none), tr)

/-- Go `func (impl K8sUtil) deleteNs(namespace string, client *v12.CoreV1Client)
error`. -/
def deleteNs (env : Env) (ns : String) (client : CoreV1Client) :
    Option GoError × List Event :=
  (env.nsDeleteErr client ns, [.call (.nsDelete client ns)])

/-- Go `func (impl K8sUtil) CreateNsIfNotExists(namespace string, clusterConfig
*ClusterConfig) (err error)`: get a client, check existence, return early on
error or existence, otherwise create. -/
def CreateNsIfNotExists (env : Env) (ns : String) (clusterConfig : ClusterConfig) :
    Option GoError × List Event :=
  match GetClient env clusterConfig with
  | (.error err, tr1) => (some err, tr1)
  | (.ok client, tr1) =>
    match checkIfNsExists env ns client with
    | ((_, some err), tr2) => (some err, tr1 ++ tr2)
    | ((exi, none), tr2) =>
      if exi then (none, tr1 ++ tr2)
      else
        let tr3 : List Event := [.log "ns not exists creating" [ns]]
        match createNs env ns client with
        | ((_, err), tr4) => (err, tr1 ++ tr2 ++ tr3 ++ tr4)

/-- The `rest.Config` literal built inside `getargoAppClient`: group
`argoproj.io`, version `v1alpha1`, `APIPath = "/apis"`, host, bearer token,
`Insecure = true`, and a negotiated serializer. -/
def argoRestConfig (clusterConfig : ClusterConfig) : RestConfig :=
  { Host := clusterConfig.Host
    BearerToken := clusterConfig.BearerToken
    Insecure := true
    APIPath := "/apis"
    GroupVersion := some { Group := "argoproj.io", Version := "v1alpha1" }
    NegotiatedSerializerSet := true }

/-- Go `func (impl K8sUtil) getargoAppClient(clusterConfig *ClusterConfig)
(*rest.RESTClient, error)`: builds the config above and calls
`rest.RESTClientFor(config)`, which bakes the config into the client. -/
def getargoAppClient (env : Env) (clusterConfig : ClusterConfig) :
    Except GoError RESTClient × List Event :=
  let config := argoRestConfig clusterConfig
  let tr : List Event := [.call (.restClientFor config)]
  match env.restClientForErr config with
  | some err => (.error err, tr)
  | none => (.ok { config := config }, tr)

/-- Go `func (impl K8sUtil) CreateArgoApplication(namespace string, application
string, clusterConfig *ClusterConfig) error`: POSTs the raw body to the
`applications` resource in the namespace, logs the raw response, returns
only the error. -/
def CreateArgoApplication (env : Env) (ns : String) (application : String)
    (clusterConfig : ClusterConfig) : Option GoError × List Event :=
  match getargoAppClient env clusterConfig with
  | (.error err, tr1) => (some err, tr1)
  | (.ok client, tr1) =>
    let tr2 : List Event := [.log "creating application" [application]]
    match env.restPostRes client "applications" ns application with
    | (res, err) =>
      (err, tr1 ++ tr2 ++
        [.call (.restPost client "applications" ns application),
         .log "argo app create res" [res]])

/-- Go `func (impl K8sUtil) GetConfigMap(namespace string, name string,
clusterConfig *ClusterConfig) (*v1.ConfigMap, error)`. -/
def GetConfigMap (env : Env) (ns name : String) (clusterConfig : ClusterConfig) :
    (Option ConfigMap × Option GoError) × List Event :=
  match GetClient env clusterConfig with
  | (.error err, tr1) => ((none, some err), tr1)
  | (.ok client, tr1) =>
    let tr2 : List Event := [.call (.cmGet client ns name)]
    match env.cmGetRes client ns name with
    | .error err => ((none, some err), tr1 ++ tr2)
    | .ok cm => ((some cm, none), tr1 ++ tr2)

/-- Go `func (impl K8sUtil) GetConfigMapFast(namespace string, name string,
client *v12.CoreV1Client) (*v1.ConfigMap, error)`. -/
def GetConfigMapFast (env : Env) (ns name : String) (client : CoreV1Client) :
    (Option ConfigMap × Option GoError) × List Event :=
  let tr : List Event := [.call (.cmGet client ns name)]
  match env.cmGetRes client ns name with
  | .error err => ((none, some err), tr)
  | .ok cm => ((some cm, none), tr)

/-- Go `func (impl K8sUtil) UpdateConfigMap(namespace string, cm *v1.ConfigMap,
clusterConfig *ClusterConfig) (*v1.ConfigMap, error)`. -/
def UpdateConfigMap (env : Env) (ns : String) (cm : ConfigMap)
    (clusterConfig : ClusterConfig) :
    (Option ConfigMap × Option GoError) × List Event :=
  match GetClient env clusterConfig with
  | (.error err, tr1) => ((none, some err), tr1)
  | (.ok client, tr1) =>
    let tr2 : List Event := [.call (.cmUpdate client ns cm)]
    match env.cmUpdateRes client ns cm with
    | .error err => ((none, some err), tr1 ++ tr2)
    | .ok cm2 => ((some cm2, none), tr1 ++ tr2)

/-- Go `func (impl K8sUtil) UpdateConfigMapFast(namespace string, cm
*v1.ConfigMap, client *v12.CoreV1Client) (*v1.ConfigMap, error)`. -/
def UpdateConfigMapFast (env : Env) (ns : String) (cm : ConfigMap)
    (client : CoreV1Client) :
    (Option ConfigMap × Option GoError) × List Event :=
  let tr : List Event := [.call (.cmUpdate client ns cm)]
  match env.cmUpdateRes client ns cm with
  | .error err => ((none, some err), tr)
  | .ok cm2 => ((some cm2, none), tr)

/-- Go `func (impl K8sUtil) PatchConfigMap(namespace string, clusterConfig
*ClusterConfig, name string, data map[string]interface\x7b\x7d)
(*v1.ConfigMap, error)`: marshals `data` (panicking on failure) and issues a
`types.MergePatchType` patch with the marshalled bytes. -/
def PatchConfigMap (env : Env) (ns : String) (clusterConfig : ClusterConfig)
    (name : String) (data : List (String × GoValue)) :
    Outcome (Option ConfigMap × Option GoError) × List Event :=
  match GetClient env clusterConfig with
  | (.error err, tr1) => (.ret (none, some err), tr1)
  | (.ok client, tr1) =>
    match marshal (.vobj data) with
    | .error m => (.panicked m, tr1)
    | .ok b =>
      let tr2 : List Event := [.call (.cmPatch client ns name MergePatchType b)]
      match env.cmPatchRes client ns name MergePatchType b with
      | .error err => (.ret (none, some err), tr1 ++ tr2)
      | .ok cm => (.ret (some cm, none), tr1 ++ tr2)

/-- Go `func (impl K8sUtil) PatchConfigMapJsonType(namespace string,
clusterConfig *ClusterConfig, name string, data interface\x7b\x7d, path
string) (*v1.ConfigMap, error)`: wraps `data` in a single
`\x7bop: "replace", path, value\x7d` operation, marshals the one-element
slice (panicking on failure) and issues a `types.JSONPatchType` patch. -/
def PatchConfigMapJsonType (env : Env) (ns : String)
    (clusterConfig : ClusterConfig) (name : String) (data : GoValue)
    (path : String) :
    Outcome (Option ConfigMap × Option GoError) × List Event :=
  match GetClient env clusterConfig with
  | (.error err, tr1) => (.ret (none, some err), tr1)
  | (.ok client, tr1) =>
    let patch : JsonPatchType := { Op := "replace", Path := path, Value := data }
    let patches : List JsonPatchType := [patch]
    match marshal (.varr (patches.map JsonPatchType.toGoValue)) with
    | .error m => (.panicked m, tr1)
    | .ok b =>
      let tr2 : List Event := [.call (.cmPatch client ns name JSONPatchType b)]
      match env.cmPatchRes client ns name JSONPatchType b with
      | .error err => (.ret (none, some err), tr1 ++ tr2)
      | .ok cm => (.ret (some cm, none), tr1 ++ tr2)

/-- Go `func (impl K8sUtil) GetSecretFast(namespace string, name string, client
*v12.CoreV1Client) (*v1.Secret, error)`. -/
def GetSecretFast (env : Env) (ns name : String) (client : CoreV1Client) :
    (Option Secret × Option GoError) × List Event :=
  let tr : List Event := [.call (.secGet client ns name)]
  match env.secGetRes client ns name with
  | .error err => ((none, some err), tr)
  | .ok s => ((some s, none), tr)

/-- Go `func (impl K8sUtil) CreateSecretFast(namespace string, username string,
password string, client *v12.CoreV1Client) (*v1.Secret, error)`: builds
`&v1.Secret\x7bObjectMeta: \x7bName: "devtron-secret-test"\x7d, Data:
map[string][]byte\x7b\x7d\x7d` — `username` and `password` are never read. -/
def CreateSecretFast (env : Env) (ns username password : String)
    (client : CoreV1Client) :
    (Option Secret × Option GoError) × List Event :=
  let secret : Secret := { ObjectMeta := { Name := "devtron-secret-test" }, Data := [] }
  let tr : List Event := [.call (.secCreate client ns secret)]
  match env.secCreateRes client ns secret with
  | .error err => ((none, some err), tr)
  | .ok s => ((some s, none), tr)

/-- Go `func (impl K8sUtil) UpdateSecretFast(namespace string, cm *v1.Secret,
client *v12.CoreV1Client) (*v1.Secret, error)`. -/
def UpdateSecretFast (env : Env) (ns : String) (cm : Secret)
    (client : CoreV1Client) :
    (Option Secret × Option GoError) × List Event :=
  let tr : List Event := [.call (.secUpdate client ns cm)]
  match env.secUpdateRes client ns cm with
  | .error err => ((none, some err), tr)
  | .ok s => ((some s, none), tr)

/-!  Helper observations over traces and results, used by the theorems. -/

/-- Whether an event is a client construction (`v12.NewForConfig` or
`rest.RESTClientFor`). -/
def Event.isClientConstruction : Event → Bool
  | .call (.newForConfig _) => true
  | .call (.restClientFor _) => true
  | _ => false

/-- Whether an event is compatible with using only the given caller-supplied
core client: log statements qualify, client constructions never do, and a
remote call qualifies exactly when it is made through that client. -/
def Event.usesOnlyClient (cl : CoreV1Client) : Event → Bool
  | .call (.newForConfig _) => false
  | .call (.restClientFor _) => false
  | .call (.nsGet c _) => decide (c = cl)
  | .call (.nsCreate c _) => decide (c = cl)
  | .call (.nsDelete c _) => decide (c = cl)
  | .call (.cmGet c _ _) => decide (c = cl)
  | .call (.cmUpdate c _ _) => decide (c = cl)
  | .call (.cmPatch c _ _ _ _) => decide (c = cl)
  | .call (.secGet c _ _) => decide (c = cl)
  | .call (.secCreate c _ _) => decide (c = cl)
  | .call (.secUpdate c _ _) => decide (c = cl)
  | .call (.restPost _ _ _ _) => false
  | .log _ _ => true

/-- The error component of a Go `(value, err)` return built from a remote
call's result. -/
def errOf {α : Type} : Except GoError α → Option GoError
  | .error e => some e
  | .ok _ => none

/-- How every wrapper in the file turns a remote call result into its Go
`(pointer, error)` return: `if err != nil \x7b return nil, err \x7d else
\x7b return v, nil \x7d`. -/
def liftRes {α : Type} : Except GoError α → Option α × Option GoError
  | .error e => (none, some e)
  | .ok a => (some a, none)

/-- Whether exactly one component of a Go `(pointer, error)` pair is
non-nil. -/
def exactlyOneSome {α : Type} (p : Option α × Option GoError) : Bool :=
  p.1.isSome ^^ p.2.isSome

/-- The predicate `exactlyOneSome` lifted to possibly-panicking results: a
panic never returns, so only the returned pair is constrained. -/
def retExactlyOne {α : Type} : Outcome (Option α × Option GoError) → Bool
  | .panicked _ => true
  | .ret p => exactlyOneSome p

/-- The common prologue `client, err := impl.GetClient(...); if err != nil
\x7b return nil, err \x7d` of the non-Fast wrappers, as a combinator over
the rest of the wrapper body. -/
def withClient {α : Type} (env : Env) (cc : ClusterConfig)
    (k : CoreV1Client → Option α × Option GoError) :
    Option α × Option GoError :=
  match env.newForConfigRes (coreRestConfig cc) with
  | .error e => (none, some e)
  | .ok c => k c

/-- The same prologue for the possibly-panicking patch wrappers. -/
def withClientP {α : Type} (env : Env) (cc : ClusterConfig)
    (k : CoreV1Client → Outcome (Option α × Option GoError)) :
    Outcome (Option α × Option GoError) :=
  match env.newForConfigRes (coreRestConfig cc) with
  | .error e => .ret (none, some e)
  | .ok c => k c

/-!  Concrete fixtures: a cluster configuration and an environment used to
witness the theorems with hypotheses. -/

/-- A concrete cluster configuration. -/
def cc0 : ClusterConfig := { Host := "https://cluster.example", BearerToken := "tok" }

/-- The concrete core client the test environment hands out. -/
def testClient : CoreV1Client := { id := 7 }

/-- A concrete not-found error. -/
def nfErr : GoError := { IsNotFound := true, msg := "namespaces not found" }

/-- A concrete non-not-found error. -/
def otherErr : GoError := { IsNotFound := false, msg := "connection refused" }

/-- A concrete config map. -/
def cm0 : ConfigMap := { ObjectMeta := { Name := "cm0" }, Data := [("k", "v")] }

/-- A concrete secret. -/
def sec0 : Secret := { ObjectMeta := { Name := "s0" }, Data := [] }

/-- A concrete environment: client construction succeeds, the namespace get
reports not-found, and every other call succeeds. -/
def baseEnv : Env :=
  { newForConfigRes := fun _ => .ok testClient
    restClientForErr := fun _ => none
    nsGetRes := fun _ _ => .error nfErr
    nsCreateRes := fun _ n => .ok n
    nsDeleteErr := fun _ _ => none
    cmGetRes := fun _ _ _ => .ok cm0
    cmUpdateRes := fun _ _ c => .ok c
    cmPatchRes := fun _ _ _ _ _ => .ok cm0
    secGetRes := fun _ _ _ => .ok sec0
    secCreateRes := fun _ _ s => .ok s
    secUpdateRes := fun _ _ s => .ok s
    restPostRes := fun _ _ _ _ => ("created", none) }

/-!  Theorems checking the specification's claims. -/

/-- C2: `checkIfNsExists` classifies a not-found error from the namespace
get as `(exists = false, err = nil)`, propagates any other non-nil error as
`(false, that error)`, and reports a successful fetch as `(true, nil)`. -/
theorem C2_checkIfNsExists_classifies (env : Env) (ns : String)
    (client : CoreV1Client) :
    (checkIfNsExists env ns client).1 =
      match env.nsGetRes client ns with
      | .error e => if e.IsNotFound then (false, none) else (false, some e)
      | .ok _ => (true, none) := by
  unfold checkIfNsExists
  cases env.nsGetRes client ns with
  | error e => cases hb : e.IsNotFound <;> simp [hb]
  | ok v => rfl

/-- C9: `GetClient` hands `v12.NewForConfig` exactly the config built from
the supplied host and bearer token with `Insecure = true` (all other fields
zero), performs no validation of its own, and returns the constructor's
result unchanged — in particular it returns an error exactly when the
underlying construction fails. -/
theorem C9_GetClient_builds_insecure_client (env : Env) (cc : ClusterConfig) :
    GetClient env cc =
      (env.newForConfigRes (coreRestConfig cc),
       [.call (.newForConfig (coreRestConfig cc))]) ∧
    coreRestConfig cc =
      { Host := cc.Host, BearerToken := cc.BearerToken, Insecure := true,
        APIPath := "", GroupVersion := none, NegotiatedSerializerSet := false } :=
  ⟨rfl, rfl⟩

/-- C4: `CreateSecretFast` always sends a create call for the secret named
by the fixed literal `"devtron-secret-test"` with an empty data payload, and
its entire behaviour — request sent and results returned — is independent of
the `username` and `password` arguments. -/
theorem C4_CreateSecretFast_ignores_credentials (env : Env)
    (ns u1 p1 u2 p2 : String) (client : CoreV1Client) :
    CreateSecretFast env ns u1 p1 client = CreateSecretFast env ns u2 p2 client ∧
    callsOf (CreateSecretFast env ns u1 p1 client).2 =
      [.secCreate client ns
        { ObjectMeta := { Name := "devtron-secret-test" }, Data := [] }] := by
  refine ⟨rfl, ?_⟩
  unfold CreateSecretFast
  cases h : env.secCreateRes client ns
      { ObjectMeta := { Name := "devtron-secret-test" }, Data := [] } <;>
    simp [callsOf, h]

/-- C1: once a client is obtained, `CreateNsIfNotExists` first issues the
namespace existence check; when the check finds the namespace it returns nil
having issued no create call, and when the check reports not-found it issues
exactly one create call — for a namespace with the given name — and returns
that call's error. -/
theorem C1_CreateNsIfNotExists_creates_once (env : Env) (ns : String)
    (cc : ClusterConfig) (client : CoreV1Client)
    (hclient : (GetClient env cc).1 = .ok client) :
    callsOf (CreateNsIfNotExists env ns cc).2 =
      (match env.nsGetRes client ns with
       | .error e =>
         if e.IsNotFound then
           [.newForConfig (coreRestConfig cc), .nsGet client ns,
            .nsCreate client { ObjectMeta := { Name := ns } }]
         else [.newForConfig (coreRestConfig cc), .nsGet client ns]
       | .ok _ => [.newForConfig (coreRestConfig cc), .nsGet client ns]) ∧
    (CreateNsIfNotExists env ns cc).1 =
      (match env.nsGetRes client ns with
       | .error e =>
         if e.IsNotFound then
           errOf (env.nsCreateRes client { ObjectMeta := { Name := ns } })
         else some e
       | .ok _ => none) := by
  have hc : env.newForConfigRes (coreRestConfig cc) = .ok client := hclient
  cases h : env.nsGetRes client ns with
  | error e =>
    cases hb : e.IsNotFound with
    | true =>
      cases hcr : env.nsCreateRes client { ObjectMeta := { Name := ns } } <;>
        simp [CreateNsIfNotExists, GetClient, checkIfNsExists, createNs,
          callsOf, errOf, hc, h, hb, hcr]
    | false =>
      simp [CreateNsIfNotExists, GetClient, checkIfNsExists, createNs,
        callsOf, errOf, hc, h, hb]
  | ok v =>
    simp [CreateNsIfNotExists, GetClient, checkIfNsExists, createNs,
      callsOf, errOf, hc, h]

/-- Witness for C1 at the concrete environment whose existence check reports
not-found: exactly one create call, for the requested name, and a nil
result. -/
theorem C1_CreateNsIfNotExists_creates_once_witness :
    callsOf (CreateNsIfNotExists baseEnv "demo" cc0).2 =
      [.newForConfig (coreRestConfig cc0), .nsGet testClient "demo",
       .nsCreate testClient { ObjectMeta := { Name := "demo" } }] ∧
    (CreateNsIfNotExists baseEnv "demo" cc0).1 = none := by
  have h := C1_CreateNsIfNotExists_creates_once baseEnv "demo" cc0 testClient rfl
  simpa [baseEnv, nfErr, errOf] using h

/-- C3: in `PatchConfigMap` and `PatchConfigMapJsonType`, once a client is
obtained, a `json.Marshal` failure of the patch body panics — the functions
never reach their error-return path on serialization failure. -/
theorem C3_patch_marshal_failure_panics (env : Env) (ns name path : String)
    (cc : ClusterConfig) (client : CoreV1Client)
    (data : List (String × GoValue)) (d : GoValue)
    (hclient : (GetClient env cc).1 = .ok client)
    (hdata : hasUnsupported (.vobj data) = true)
    (hd : hasUnsupported d = true) :
    (PatchConfigMap env ns cc name data).1 = .panicked jsonUnsupportedMsg ∧
    (PatchConfigMapJsonType env ns cc name d path).1 =
      .panicked jsonUnsupportedMsg := by
  have hc : env.newForConfigRes (coreRestConfig cc) = .ok client := hclient
  constructor
  · simp [PatchConfigMap, GetClient, marshal, hc, hdata]
  · simp [PatchConfigMapJsonType, GetClient, marshal, hc, JsonPatchType.toGoValue,
      hasUnsupported, hasUnsupportedItems, hasUnsupportedFields, hd]

/-- Witness for C3 at the concrete environment and unserialisable payloads. -/
theorem C3_patch_marshal_failure_panics_witness :
    (PatchConfigMap baseEnv "ns1" cc0 "cm1"
        [("k", .vunsupported "chan")]).1 = .panicked jsonUnsupportedMsg ∧
    (PatchConfigMapJsonType baseEnv "ns1" cc0 "cm1"
        (.vunsupported "func") "/data/k").1 = .panicked jsonUnsupportedMsg :=
  C3_patch_marshal_failure_panics baseEnv "ns1" "cm1" "/data/k" cc0 testClient
    [("k", .vunsupported "chan")] (.vunsupported "func") rfl rfl rfl

/-- C5: once a client is obtained and the body serialises, `PatchConfigMap`
issues exactly one patch call, of merge-patch type, whose body is the JSON
encoding of `data`, against the named config map in the given namespace, and
returns the lifted result of that call. -/
theorem C5_PatchConfigMap_merge_patch (env : Env) (ns name : String)
    (cc : ClusterConfig) (client : CoreV1Client)
    (data : List (String × GoValue))
    (hclient : (GetClient env cc).1 = .ok client)
    (hm : hasUnsupported (.vobj data) = false) :
    callsOf (PatchConfigMap env ns cc name data).2 =
      [.newForConfig (coreRestConfig cc),
       .cmPatch client ns name MergePatchType (jsonEncode (.vobj data))] ∧
    (PatchConfigMap env ns cc name data).1 =
      .ret (liftRes
        (env.cmPatchRes client ns name MergePatchType (jsonEncode (.vobj data)))) := by
  have hc : env.newForConfigRes (coreRestConfig cc) = .ok client := hclient
  cases h : env.cmPatchRes client ns name MergePatchType (jsonEncode (.vobj data)) <;>
    simp [PatchConfigMap, GetClient, marshal, callsOf, liftRes, hc, hm, h]

/-- Witness for C5 at the concrete environment and the payload
`\x7b"k": "v"\x7d`. -/
theorem C5_PatchConfigMap_merge_patch_witness :
    callsOf (PatchConfigMap baseEnv "ns1" cc0 "cm1" [("k", .vstr "v")]).2 =
      [.newForConfig (coreRestConfig cc0),
       .cmPatch testClient "ns1" "cm1" MergePatchType
         (jsonEncode (.vobj [("k", .vstr "v")]))] ∧
    (PatchConfigMap baseEnv "ns1" cc0 "cm1" [("k", .vstr "v")]).1 =
      .ret (liftRes
        (baseEnv.cmPatchRes testClient "ns1" "cm1" MergePatchType
          (jsonEncode (.vobj [("k", .vstr "v")])))) :=
  C5_PatchConfigMap_merge_patch baseEnv "ns1" "cm1" cc0 testClient
    [("k", .vstr "v")] rfl rfl

/-- C6: once a client is obtained and the value serialises,
`PatchConfigMapJsonType` issues exactly one patch call, of JSON-patch type,
whose body is the encoding of a list holding exactly one operation
`\x7bop: "replace", path: path, value: data\x7d`, and returns the lifted
result of that call. -/
theorem C6_PatchConfigMapJsonType_single_replace (env : Env)
    (ns name path : String) (cc : ClusterConfig) (client : CoreV1Client)
    (data : GoValue)
    (hclient : (GetClient env cc).1 = .ok client)
    (hm : hasUnsupported data = false) :
    callsOf (PatchConfigMapJsonType env ns cc name data path).2 =
      [.newForConfig (coreRestConfig cc),
       .cmPatch client ns name JSONPatchType
         (jsonEncode (.varr
           [JsonPatchType.toGoValue { Op := "replace", Path := path, Value := data }]))] ∧
    (PatchConfigMapJsonType env ns cc name data path).1 =
      .ret (liftRes
        (env.cmPatchRes client ns name JSONPatchType
          (jsonEncode (.varr
            [JsonPatchType.toGoValue
              { Op := "replace", Path := path, Value := data }])))) := by
  have hc : env.newForConfigRes (coreRestConfig cc) = .ok client := hclient
  have hm2 : hasUnsupported
      (.varr [JsonPatchType.toGoValue { Op := "replace", Path := path, Value := data }]) = false := by
    simp [hasUnsupported, hasUnsupportedItems, hasUnsupportedFields,
      JsonPatchType.toGoValue, hm]
  cases h : env.cmPatchRes client ns name JSONPatchType
      (jsonEncode (.varr
        [JsonPatchType.toGoValue { Op := "replace", Path := path, Value := data }])) <;>
    simp [PatchConfigMapJsonType, GetClient, marshal, callsOf, liftRes, hc, hm2, h]

/-- Witness for C6 at the concrete environment, patching `/data/k` to the
string value `"v2"`. -/
theorem C6_PatchConfigMapJsonType_single_replace_witness :
    callsOf (PatchConfigMapJsonType baseEnv "ns1" cc0 "cm1"
        (.vstr "v2") "/data/k").2 =
      [.newForConfig (coreRestConfig cc0),
       .cmPatch testClient "ns1" "cm1" JSONPatchType
         (jsonEncode (.varr
           [JsonPatchType.toGoValue
             { Op := "replace", Path := "/data/k", Value := .vstr "v2" }]))] ∧
    (PatchConfigMapJsonType baseEnv "ns1" cc0 "cm1" (.vstr "v2") "/data/k").1 =
      .ret (liftRes
        (baseEnv.cmPatchRes testClient "ns1" "cm1" JSONPatchType
          (jsonEncode (.varr
            [JsonPatchType.toGoValue
              { Op := "replace", Path := "/data/k", Value := .vstr "v2" }])))) :=
  C6_PatchConfigMapJsonType_single_replace baseEnv "ns1" "cm1" "/data/k" cc0
    testClient (.vstr "v2") rfl rfl

/-- C7: every "Fast" variant issues no client-construction call, and every
event in its trace is compatible with using only the caller-supplied client:
each remote call it performs goes through exactly that client. -/
theorem C7_fast_variants_never_construct_clients (env : Env)
    (ns name u p : String) (cm : ConfigMap) (sec : Secret)
    (client : CoreV1Client) :
    ((GetConfigMapFast env ns name client).2.all
        (fun e => !e.isClientConstruction) = true ∧
     (GetConfigMapFast env ns name client).2.all
        (Event.usesOnlyClient client) = true) ∧
    ((UpdateConfigMapFast env ns cm client).2.all
        (fun e => !e.isClientConstruction) = true ∧
     (UpdateConfigMapFast env ns cm client).2.all
        (Event.usesOnlyClient client) = true) ∧
    ((GetSecretFast env ns name client).2.all
        (fun e => !e.isClientConstruction) = true ∧
     (GetSecretFast env ns name client).2.all
        (Event.usesOnlyClient client) = true) ∧
    ((CreateSecretFast env ns u p client).2.all
        (fun e => !e.isClientConstruction) = true ∧
     (CreateSecretFast env ns u p client).2.all
        (Event.usesOnlyClient client) = true) ∧
    ((UpdateSecretFast env ns sec client).2.all
        (fun e => !e.isClientConstruction) = true ∧
     (UpdateSecretFast env ns sec client).2.all
        (Event.usesOnlyClient client) = true) := by
  refine ⟨⟨?_, ?_⟩, ⟨?_, ?_⟩, ⟨?_, ?_⟩, ⟨?_, ?_⟩, ⟨?_, ?_⟩⟩
  · cases h : env.cmGetRes client ns name <;>
      simp [GetConfigMapFast, Event.usesOnlyClient, Event.isClientConstruction, h]
  · cases h : env.cmGetRes client ns name <;>
      simp [GetConfigMapFast, Event.usesOnlyClient, Event.isClientConstruction, h]
  · cases h : env.cmUpdateRes client ns cm <;>
      simp [UpdateConfigMapFast, Event.usesOnlyClient, Event.isClientConstruction, h]
  · cases h : env.cmUpdateRes client ns cm <;>
      simp [UpdateConfigMapFast, Event.usesOnlyClient, Event.isClientConstruction, h]
  · cases h : env.secGetRes client ns name <;>
      simp [GetSecretFast, Event.usesOnlyClient, Event.isClientConstruction, h]
  · cases h : env.secGetRes client ns name <;>
      simp [GetSecretFast, Event.usesOnlyClient, Event.isClientConstruction, h]
  · cases h : env.secCreateRes client ns
        { ObjectMeta := { Name := "devtron-secret-test" }, Data := [] } <;>
      simp [CreateSecretFast, Event.usesOnlyClient, Event.isClientConstruction, h]
  · cases h : env.secCreateRes client ns
        { ObjectMeta := { Name := "devtron-secret-test" }, Data := [] } <;>
      simp [CreateSecretFast, Event.usesOnlyClient, Event.isClientConstruction, h]
  · cases h : env.secUpdateRes client ns sec <;>
      simp [UpdateSecretFast, Event.usesOnlyClient, Event.isClientConstruction, h]
  · cases h : env.secUpdateRes client ns sec <;>
      simp [UpdateSecretFast, Event.usesOnlyClient, Event.isClientConstruction, h]

/-- C8: `CreateArgoApplication` builds its raw REST client from a config
scoped to API path `/apis`, group `argoproj.io`, version `v1alpha1` (host
and token from the cluster config, insecure), POSTs the application body
unchanged to the `applications` collection in the given namespace, logs the
raw response, and returns only the error component of the call. -/
theorem C8_CreateArgoApplication_raw_post (env : Env) (ns app : String)
    (cc : ClusterConfig)
    (hc : env.restClientForErr (argoRestConfig cc) = none) :
    CreateArgoApplication env ns app cc =
      ((env.restPostRes { config := argoRestConfig cc } "applications" ns app).2,
       [.call (.restClientFor (argoRestConfig cc)),
        .log "creating application" [app],
        .call (.restPost { config := argoRestConfig cc } "applications" ns app),
        .log "argo app create res"
          [(env.restPostRes { config := argoRestConfig cc } "applications" ns app).1]]) ∧
    argoRestConfig cc =
      { Host := cc.Host, BearerToken := cc.BearerToken, Insecure := true,
        APIPath := "/apis",
        GroupVersion := some { Group := "argoproj.io", Version := "v1alpha1" },
        NegotiatedSerializerSet := true } := by
  refine ⟨?_, rfl⟩
  simp [CreateArgoApplication, getargoAppClient, hc]

/-- Witness for C8 at the concrete environment: the POST succeeds and the
trace is exactly construction, log, POST, response log. -/
theorem C8_CreateArgoApplication_raw_post_witness :
    CreateArgoApplication baseEnv "argocd" "appbody" cc0 =
      ((baseEnv.restPostRes { config := argoRestConfig cc0 }
          "applications" "argocd" "appbody").2,
       [.call (.restClientFor (argoRestConfig cc0)),
        .log "creating application" ["appbody"],
        .call (.restPost { config := argoRestConfig cc0 }
          "applications" "argocd" "appbody"),
        .log "argo app create res"
          [(baseEnv.restPostRes { config := argoRestConfig cc0 }
              "applications" "argocd" "appbody").1]]) :=
  (C8_CreateArgoApplication_raw_post baseEnv "argocd" "appbody" cc0 rfl).1

/-!  Helper lemmas for C10: the returned `(pointer, error)` pair of every
wrapper, characterised against the underlying call's result. -/

/-- A lifted remote result always has exactly one non-nil component. -/
theorem exactlyOneSome_liftRes {α : Type} (r : Except GoError α) :
    exactlyOneSome (liftRes r) = true := by
  cases r <;> simp [liftRes, exactlyOneSome]

/-- Result characterisation of `GetConfigMap`. -/
theorem GetConfigMap_result (env : Env) (ns name : String) (cc : ClusterConfig) :
    (GetConfigMap env ns name cc).1 =
      withClient env cc (fun c => liftRes (env.cmGetRes c ns name)) := by
  unfold GetConfigMap withClient GetClient
  cases hc : env.newForConfigRes (coreRestConfig cc) with
  | error e => simp [hc]
  | ok c => cases h : env.cmGetRes c ns name <;> simp [liftRes, hc, h]

/-- Result characterisation of `GetConfigMapFast`. -/
theorem GetConfigMapFast_result (env : Env) (ns name : String)
    (client : CoreV1Client) :
    (GetConfigMapFast env ns name client).1 =
      liftRes (env.cmGetRes client ns name) := by
  unfold GetConfigMapFast
  cases h : env.cmGetRes client ns name <;> simp [liftRes, h]

/-- Result characterisation of `UpdateConfigMap`. -/
theorem UpdateConfigMap_result (env : Env) (ns : String) (cm : ConfigMap)
    (cc : ClusterConfig) :
    (UpdateConfigMap env ns cm cc).1 =
      withClient env cc (fun c => liftRes (env.cmUpdateRes c ns cm)) := by
  unfold UpdateConfigMap withClient GetClient
  cases hc : env.newForConfigRes (coreRestConfig cc) with
  | error e => simp [hc]
  | ok c => cases h : env.cmUpdateRes c ns cm <;> simp [liftRes, hc, h]

/-- Result characterisation of `UpdateConfigMapFast`. -/
theorem UpdateConfigMapFast_result (env : Env) (ns : String) (cm : ConfigMap)
    (client : CoreV1Client) :
    (UpdateConfigMapFast env ns cm client).1 =
      liftRes (env.cmUpdateRes client ns cm) := by
  unfold UpdateConfigMapFast
  cases h : env.cmUpdateRes client ns cm <;> simp [liftRes, h]

/-- Result characterisation of `PatchConfigMap`. -/
theorem PatchConfigMap_result (env : Env) (ns name : String)
    (cc : ClusterConfig) (data : List (String × GoValue)) :
    (PatchConfigMap env ns cc name data).1 =
      withClientP env cc (fun c =>
        match marshal (.vobj data) with
        | .error m => .panicked m
        | .ok b => .ret (liftRes (env.cmPatchRes c ns name MergePatchType b))) := by
  unfold PatchConfigMap withClientP GetClient
  cases hc : env.newForConfigRes (coreRestConfig cc) with
  | error e => simp [hc]
  | ok c =>
    cases hm : marshal (.vobj data) with
    | error m => simp [hc, hm]
    | ok b =>
      cases h : env.cmPatchRes c ns name MergePatchType b <;>
        simp [liftRes, hc, hm, h]

/-- Result characterisation of `PatchConfigMapJsonType`. -/
theorem PatchConfigMapJsonType_result (env : Env) (ns name path : String)
    (cc : ClusterConfig) (d : GoValue) :
    (PatchConfigMapJsonType env ns cc name d path).1 =
      withClientP env cc (fun c =>
        match marshal (.varr [JsonPatchType.toGoValue
            { Op := "replace", Path := path, Value := d }]) with
        | .error m => .panicked m
        | .ok b => .ret (liftRes (env.cmPatchRes c ns name JSONPatchType b))) := by
  unfold PatchConfigMapJsonType withClientP GetClient
  cases hc : env.newForConfigRes (coreRestConfig cc) with
  | error e => simp [hc]
  | ok c =>
    cases hm : marshal (.varr [JsonPatchType.toGoValue
        { Op := "replace", Path := path, Value := d }]) with
    | error m => simp [hc, hm]
    | ok b =>
      cases h : env.cmPatchRes c ns name JSONPatchType b <;>
        simp [liftRes, hc, hm, h]

/-- Result characterisation of `GetSecretFast`. -/
theorem GetSecretFast_result (env : Env) (ns name : String)
    (client : CoreV1Client) :
    (GetSecretFast env ns name client).1 =
      liftRes (env.secGetRes client ns name) := by
  unfold GetSecretFast
  cases h : env.secGetRes client ns name <;> simp [liftRes, h]

/-- Result characterisation of `CreateSecretFast`. -/
theorem CreateSecretFast_result (env : Env) (ns u p : String)
    (client : CoreV1Client) :
    (CreateSecretFast env ns u p client).1 =
      liftRes (env.secCreateRes client ns
        { ObjectMeta := { Name := "devtron-secret-test" }, Data := [] }) := by
  unfold CreateSecretFast
  cases h : env.secCreateRes client ns
      { ObjectMeta := { Name := "devtron-secret-test" }, Data := [] } <;>
    simp [liftRes, h]

/-- Result characterisation of `UpdateSecretFast`. -/
theorem UpdateSecretFast_result (env : Env) (ns : String) (sec : Secret)
    (client : CoreV1Client) :
    (UpdateSecretFast env ns sec client).1 =
      liftRes (env.secUpdateRes client ns sec) := by
  unfold UpdateSecretFast
  cases h : env.secUpdateRes client ns sec <;> simp [liftRes, h]

/-- A `withClient` result always has exactly one non-nil component when its
continuation does. -/
theorem exactlyOneSome_withClient {α : Type} (env : Env) (cc : ClusterConfig)
    (k : CoreV1Client → Option α × Option GoError)
    (hk : ∀ c, exactlyOneSome (k c) = true) :
    exactlyOneSome (withClient env cc k) = true := by
  unfold withClient
  cases hc : env.newForConfigRes (coreRestConfig cc) with
  | error e => simp [exactlyOneSome]
  | ok c => exact hk c

/-- A `withClientP` result always satisfies `retExactlyOne` when its
continuation does. -/
theorem retExactlyOne_withClientP {α : Type} (env : Env) (cc : ClusterConfig)
    (k : CoreV1Client → Outcome (Option α × Option GoError))
    (hk : ∀ c, retExactlyOne (k c) = true) :
    retExactlyOne (withClientP env cc k) = true := by
  unfold withClientP
  cases hc : env.newForConfigRes (coreRestConfig cc) with
  | error e => simp [retExactlyOne, exactlyOneSome]
  | ok c => exact hk c

/-- C10: every wrapper that returns a resource pointer together with an
error returns exactly one of the two non-nil — nil resource with the
propagated error on failure, and on success nil error with the resource the
underlying call produced (`liftRes` of the underlying result). -/
theorem C10_pointer_xor_error (env : Env) (cc : ClusterConfig)
    (ns name path u p : String) (cm : ConfigMap) (sec : Secret)
    (client : CoreV1Client) (data : List (String × GoValue)) (d : GoValue) :
    ((GetConfigMap env ns name cc).1 =
        withClient env cc (fun c => liftRes (env.cmGetRes c ns name)) ∧
      exactlyOneSome (GetConfigMap env ns name cc).1 = true) ∧
    ((GetConfigMapFast env ns name client).1 =
        liftRes (env.cmGetRes client ns name) ∧
      exactlyOneSome (GetConfigMapFast env ns name client).1 = true) ∧
    ((UpdateConfigMap env ns cm cc).1 =
        withClient env cc (fun c => liftRes (env.cmUpdateRes c ns cm)) ∧
      exactlyOneSome (UpdateConfigMap env ns cm cc).1 = true) ∧
    ((UpdateConfigMapFast env ns cm client).1 =
        liftRes (env.cmUpdateRes client ns cm) ∧
      exactlyOneSome (UpdateConfigMapFast env ns cm client).1 = true) ∧
    ((PatchConfigMap env ns cc name data).1 =
        withClientP env cc (fun c =>
          match marshal (.vobj data) with
          | .error m => .panicked m
          | .ok b => .ret (liftRes (env.cmPatchRes c ns name MergePatchType b))) ∧
      retExactlyOne (PatchConfigMap env ns cc name data).1 = true) ∧
    ((PatchConfigMapJsonType env ns cc name d path).1 =
        withClientP env cc (fun c =>
          match marshal (.varr [JsonPatchType.toGoValue
              { Op := "replace", Path := path, Value := d }]) with
          | .error m => .panicked m
          | .ok b => .ret (liftRes (env.cmPatchRes c ns name JSONPatchType b))) ∧
      retExactlyOne (PatchConfigMapJsonType env ns cc name d path).1 = true) ∧
    ((GetSecretFast env ns name client).1 =
        liftRes (env.secGetRes client ns name) ∧
      exactlyOneSome (GetSecretFast env ns name client).1 = true) ∧
    ((CreateSecretFast env ns u p client).1 =
        liftRes (env.secCreateRes client ns
          { ObjectMeta := { Name := "devtron-secret-test" }, Data := [] }) ∧
      exactlyOneSome (CreateSecretFast env ns u p client).1 = true) ∧
    ((UpdateSecretFast env ns sec client).1 =
        liftRes (env.secUpdateRes client ns sec) ∧
      exactlyOneSome (UpdateSecretFast env ns sec client).1 = true) := by
  refine ⟨⟨GetConfigMap_result env ns name cc, ?_⟩,
    ⟨GetConfigMapFast_result env ns name client, ?_⟩,
    ⟨UpdateConfigMap_result env ns cm cc, ?_⟩,
    ⟨UpdateConfigMapFast_result env ns cm client, ?_⟩,
    ⟨PatchConfigMap_result env ns name cc data, ?_⟩,
    ⟨PatchConfigMapJsonType_result env ns name path cc d, ?_⟩,
    ⟨GetSecretFast_result env ns name client, ?_⟩,
    ⟨CreateSecretFast_result env ns u p client, ?_⟩,
    ⟨UpdateSecretFast_result env ns sec client, ?_⟩⟩
  · rw [GetConfigMap_result]
    exact exactlyOneSome_withClient env cc _ fun c => exactlyOneSome_liftRes _
  · rw [GetConfigMapFast_result]; exact exactlyOneSome_liftRes _
  · rw [UpdateConfigMap_result]
    exact exactlyOneSome_withClient env cc _ fun c => exactlyOneSome_liftRes _
  · rw [UpdateConfigMapFast_result]; exact exactlyOneSome_liftRes _
  · rw [PatchConfigMap_result]
    refine retExactlyOne_withClientP env cc _ fun c => ?_
    cases marshal (.vobj data) with
    | error m => rfl
    | ok b =>
      simpa [retExactlyOne] using
        (exactlyOneSome_liftRes (env.cmPatchRes c ns name MergePatchType b))
  · rw [PatchConfigMapJsonType_result]
    refine retExactlyOne_withClientP env cc _ fun c => ?_
    cases marshal (.varr [JsonPatchType.toGoValue
        { Op := "replace", Path := path, Value := d }]) with
    | error m => rfl
    | ok b =>
      simpa [retExactlyOne] using
        (exactlyOneSome_liftRes (env.cmPatchRes c ns name JSONPatchType b))
  · rw [GetSecretFast_result]; exact exactlyOneSome_liftRes _
  · rw [CreateSecretFast_result]; exact exactlyOneSome_liftRes _
  · rw [UpdateSecretFast_result]; exact exactlyOneSome_liftRes _

end DevtronUtil
